import Mathlib

/-!
Shallow embedding of `src/main.ts` from return215/cgra-webgl01.

The program is a linear WebGL setup sequence (`main`) followed by a frame
callback (the closure returned by `render`).  Every WebGL / DOM call is
modelled as an emitted `GLCmd` event; the answers of the host environment
(canvas present?, context present?, compile status, attribute locations,
buffer-allocation success, ...) are collected in a `GLEnv` oracle, so each
function of the source becomes a pure function `GLEnv → List GLCmd`
(plus a returned value where the source returns one).
-/

namespace Webgl01

/-- WebGL enumerant `gl.VERTEX_SHADER` (0x8B31). -/
def GL_VERTEX_SHADER : Nat := 35633

/-- WebGL enumerant `gl.FRAGMENT_SHADER` (0x8B30). -/
def GL_FRAGMENT_SHADER : Nat := 35632

/-- WebGL enumerant `gl.COLOR_BUFFER_BIT` (0x4000). -/
def GL_COLOR_BUFFER_BIT : Nat := 16384

/-- WebGL enumerant `gl.DEPTH_BUFFER_BIT` (0x100). -/
def GL_DEPTH_BUFFER_BIT : Nat := 256

/-- WebGL enumerant `gl.ARRAY_BUFFER` (0x8892). -/
def GL_ARRAY_BUFFER : Nat := 34962

/-- WebGL enumerant `gl.STATIC_DRAW` (0x88E4). -/
def GL_STATIC_DRAW : Nat := 35044

/-- WebGL enumerant `gl.FLOAT` (0x1406). -/
def GL_FLOAT : Nat := 5126

/-- WebGL enumerant `gl.UNSIGNED_BYTE` (0x1401). -/
def GL_UNSIGNED_BYTE : Nat := 5121

/-- WebGL enumerant `gl.TRIANGLES` (0x0004). -/
def GL_TRIANGLES : Nat := 4

/-- The two GPU buffer objects `main` allocates (`posBuffer`, `colBuffer`). -/
inductive BufferId
  | posBuf
  | colBuf
deriving DecidableEq

/-- Payload handed to `gl.bufferData`: a `Float32Array` (modelled with exact
rationals) or a `Uint8Array` (naturals below 256). -/
inductive BufferPayload
  | f32 (xs : List ℚ)
  | u8 (xs : List Nat)
deriving DecidableEq

/-- One observable effect of the program: each WebGL call and each console
message is recorded as one event, in program order.  Shader handles are
identified by their stage enumerant (the program creates at most one shader
per stage). -/
inductive GLCmd
  | consoleError (msg : String)
  | consoleLog (msg : String)
  | createShaderCall (ty : Nat)
  | shaderSourceCmd (ty : Nat) (src : String)
  | compileShaderCmd (ty : Nat)
  | deleteShaderCmd (ty : Nat)
  | createProgramCall
  | attachShaderCmd (ty : Nat)
  | linkProgramCmd
  | deleteProgramCmd
  | useProgramCmd
  | createBufferCall (ok : Bool)
  | viewportCmd (x y w h : Nat)
  | clearColorCmd (r g b a : ℚ)
  | clearCmd (mask : Nat)
  | getAttribLocationCall (nm : String)
  | enableVertexAttribArrayCmd (loc : Int)
  | bindBufferCmd (target : Nat) (buf : Option BufferId)
  | bufferDataCmd (target : Nat) (data : BufferPayload) (usage : Nat)
  | vertexAttribPointerCmd (loc : Int) (size ty : Nat) (normalized : Bool) (stride offset : Nat)
  | drawArraysCmd (mode first count : Nat)
  | requestAnimationFrameCmd
deriving DecidableEq

/-- The answers of the host environment to the queries of the program: whether the
canvas and the WebGL context exist, whether each allocation succeeds, the
compile/link statuses and info logs, attribute locations, and the canvas
size after the startup resize. -/
structure GLEnv where
  canvasPresent : Bool
  contextPresent : Bool
  shaderAllocOk : Nat → Bool
  compileStatusOf : Nat → Bool
  shaderInfoLogOf : Nat → String
  programAllocOk : Bool
  linkStatusOk : Bool
  programInfoLog : String
  posBufferAlloc : Bool
  colBufferAlloc : Bool
  attribLoc : String → Int
  canvasW : Nat
  canvasH : Nat
  resizedNow : Bool

/-- Message logged when `document.querySelector("#canvas")` returns null. -/
def canvasErrMsg : String :=
  "Unable to get the canvas element. Either your HTML broke or the dev being stupid.\n      Report this to the dev ASAP.\n      "

/-- Message logged when `canvas.getContext("webgl")` returns null. -/
def contextErrMsg : String :=
  "Unable to load WebGL context from canvas. Perhaps your browser doesn\x27t support it. Stopping.\n      "

/-- Message logged when either `createShader` call returned null. -/
def shadersFailedMsg : String := "Unable to compile shaders. Stopping."

/-- Message logged when `createProgram` returned null. -/
def programFailedMsg : String := "Unable to create WebGLProgram. Stopping."

/-- The template literal `createShader` logs on compile failure, with the
shader info log interpolated. -/
def shaderCompileErrorMsg (log : String) : String :=
  "Could not compile WebGL shader.\n\n      " ++ log ++ "\n      "

/-- The template literal `createProgram` logs on link failure, with the
program info log interpolated. -/
def programLinkErrorMsg (log : String) : String :=
  "Could not compile WebGL program.\n    \n      " ++ log ++ "\n      "

/-- Modelled from the spec: the vertex-shader source `main.vert` is a
build-time text asset that is not under `src/`; the spec describes it only
as a static text declaring the attributes `a_Pos` and `a_Col`. -/
def vertProgram : String :=
  "attribute vec2 a_Pos; attribute vec4 a_Col; varying vec4 v_Col; vertex stage body"

/-- Modelled from the spec: the fragment-shader source `main.frag` is a
build-time text asset that is not under `src/`; the spec describes it only
as a static text consuming the varying written by the vertex stage. -/
def fragProgram : String :=
  "precision mediump float; varying vec4 v_Col; fragment stage body"

/-- Modelled from the spec: the coordinate helper `scaleToBottomLeft` lives
in `src/utils`, which is not under `src/`; the spec describes it only as the
bottom-left-origin scaling transform taking raw coordinates in `[0,1]` into
the fixed clip-space convention, applied elementwise exactly once. -/
def scaleToBottomLeft (x : ℚ) : ℚ := 2 * x - 1

/-- The raw position literal of `main`: 9 vertices of 2 components. -/
def posRaw : List ℚ :=
  [4/8, 4/8,
   1/8, 4/8,
   4/8, 1/8,

   4/8, 7/8,
   4/8, 4/8,
   7/8, 4/8,

   4/8, 4/8,
   7/8, 4/8,
   4/8, 1/8]

/-- `pos`: the `Float32Array` of `main` after `.map(scaleToBottomLeft)`. -/
def pos : List ℚ := posRaw.map scaleToBottomLeft

/-- First color triple (`stellaColors`). -/
def stellaColors : List Nat :=
  [196, 92, 255, 255,
   115, 92, 255, 255,
   92, 151, 255, 255]

/-- Second color triple (`revalxColors`). -/
def revalxColors : List Nat :=
  [247, 135, 2, 255,
   236, 247, 2, 255,
   247, 13, 2, 255]

/-- Third color triple (`neoColors`). -/
def neoColors : List Nat :=
  [36, 247, 150, 255,
   36, 238, 247, 255,
   36, 133, 247, 255]

/-- `colors`: the `Uint8Array` built by concatenating the three triples;
`Uint8Array` construction reduces each element modulo 256. -/
def colors : List Nat :=
  ((stellaColors ++ revalxColors) ++ neoColors).map (fun v => v % 256)

/-- `createShader(gl, type, source)`: allocate, attach source, compile;
on compile-status failure log the diagnostic, delete the shader and return
null.  Returns the emitted trace and the shader handle (its stage
enumerant) or `none`. -/
def createShader (env : GLEnv) (ty : Nat) (source : String) :
    List GLCmd × Option Nat :=
  if env.shaderAllocOk ty then
    if env.compileStatusOf ty then
      ([.createShaderCall ty, .shaderSourceCmd ty source, .compileShaderCmd ty], some ty)
    else
      ([.createShaderCall ty, .shaderSourceCmd ty source, .compileShaderCmd ty,
        .consoleError (shaderCompileErrorMsg (env.shaderInfoLogOf ty)),
        .deleteShaderCmd ty], none)
  else
    ([.createShaderCall ty], none)

/-- `createProgram(gl, vertShader, fragShader)`: allocate, attach both
shaders, link; on link-status failure log the diagnostic, delete the
program and return null.  Returns the emitted trace and `some ()` for a
linked program or `none`. -/
def createProgram (env : GLEnv) (vertShader fragShader : Nat) :
    List GLCmd × Option Unit :=
  if env.programAllocOk then
    if env.linkStatusOk then
      ([.createProgramCall, .attachShaderCmd vertShader, .attachShaderCmd fragShader,
        .linkProgramCmd], some ())
    else
      ([.createProgramCall, .attachShaderCmd vertShader, .attachShaderCmd fragShader,
        .linkProgramCmd, .consoleError (programLinkErrorMsg env.programInfoLog),
        .deleteProgramCmd], none)
  else
    ([.createProgramCall], none)

/-- The handle `main` binds for the position buffer: `gl.createBuffer()!!`
is used unchecked, so a failed allocation yields `none` flowing onward. -/
def posBufferHandle (env : GLEnv) : Option BufferId :=
  if env.posBufferAlloc then some .posBuf else none

/-- The handle `main` binds for the color buffer (same unchecked pattern). -/
def colBufferHandle (env : GLEnv) : Option BufferId :=
  if env.colBufferAlloc then some .colBuf else none

/-- The console message of the resize log line in `main`. -/
def resizeDoneMsg (env : GLEnv) : String :=
  "Canvas " ++ (if env.resizedNow then "was" else "already") ++ " resized to "
    ++ toString env.canvasW ++ "x" ++ toString env.canvasH ++ "."

/-- The closure returned by `render(gl, program)`: one frame submission.
Clear to opaque white, re-upload and describe both attributes, issue the
single `drawArrays` call.  Note the closure body contains no
`requestAnimationFrame` call. -/
def renderFrame (env : GLEnv) : List GLCmd :=
  [.clearColorCmd 1 1 1 1,
   .clearCmd (GL_COLOR_BUFFER_BIT ||| GL_DEPTH_BUFFER_BIT),
   .getAttribLocationCall "a_Pos",
   .enableVertexAttribArrayCmd (env.attribLoc "a_Pos"),
   .bindBufferCmd GL_ARRAY_BUFFER (posBufferHandle env),
   .bufferDataCmd GL_ARRAY_BUFFER (.f32 pos) GL_STATIC_DRAW,
   .vertexAttribPointerCmd (env.attribLoc "a_Pos") 2 GL_FLOAT false 0 0,
   .getAttribLocationCall "a_Col",
   .enableVertexAttribArrayCmd (env.attribLoc "a_Col"),
   .bindBufferCmd GL_ARRAY_BUFFER (colBufferHandle env),
   .bufferDataCmd GL_ARRAY_BUFFER (.u8 colors) GL_STATIC_DRAW,
   .vertexAttribPointerCmd (env.attribLoc "a_Col") 4 GL_UNSIGNED_BYTE true 0 0,
   .drawArraysCmd GL_TRIANGLES 0 (pos.length / 2)]

/-- `main()`: the startup sequence.  Canvas and context lookups guard the
rest; both shaders are compiled before their joint null check; the program
is linked and activated; the two buffers are allocated unchecked; the
canvas is resized and the viewport set; finally the frame callback is
registered once with `requestAnimationFrame`. -/
def mainRun (env : GLEnv) : List GLCmd :=
  if env.canvasPresent = false then
    [.consoleError canvasErrMsg]
  else if env.contextPresent = false then
    [.consoleError contextErrMsg]
  else
    let vres := createShader env GL_VERTEX_SHADER vertProgram
    let fres := createShader env GL_FRAGMENT_SHADER fragProgram
    if vres.2.isNone || fres.2.isNone then
      vres.1 ++ fres.1 ++ [.consoleError shadersFailedMsg]
    else
      let pres := createProgram env (vres.2.getD 0) (fres.2.getD 0)
      if pres.2.isNone then
        vres.1 ++ fres.1 ++ pres.1 ++ [.consoleError programFailedMsg]
      else
        vres.1 ++ fres.1 ++ pres.1 ++
          [.useProgramCmd,
           .createBufferCall env.posBufferAlloc,
           .createBufferCall env.colBufferAlloc,
           .consoleLog (resizeDoneMsg env),
           .viewportCmd 0 0 env.canvasW env.canvasH,
           .requestAnimationFrameCmd,
           .consoleLog "done"]

/-- Recognizes `drawArrays` events. -/
def GLCmd.isDrawArrays : GLCmd → Bool
  | .drawArraysCmd _ _ _ => true
  | _ => false

/-- Recognizes `bufferData` events. -/
def GLCmd.isBufferData : GLCmd → Bool
  | .bufferDataCmd _ _ _ => true
  | _ => false

/-- Recognizes `console.error` events. -/
def GLCmd.isConsoleError : GLCmd → Bool
  | .consoleError _ => true
  | _ => false

/-- An environment in which every host query succeeds. -/
def envAllOk : GLEnv :=
  ⟨true, true, fun _ => true, fun _ => true, fun _ => "", true, true, "",
   true, true, fun _ => 0, 300, 150, true⟩

/-- An environment in which shader allocation succeeds but every compile
status reports failure, with a sample info log. -/
def envCompileFail : GLEnv :=
  ⟨true, true, fun _ => true, fun _ => false, fun _ => "ERROR: 0:1: syntax error",
   true, true, "", true, true, fun _ => 0, 300, 150, true⟩

/-- An environment in which shaders compile but the program link status
reports failure, with a sample info log. -/
def envLinkFail : GLEnv :=
  ⟨true, true, fun _ => true, fun _ => true, fun _ => "",
   true, false, "ERROR: link failed", true, true, fun _ => 0, 300, 150, true⟩

/-- An environment in which the canvas element is missing. -/
def envNoCanvas : GLEnv :=
  ⟨false, true, fun _ => true, fun _ => true, fun _ => "", true, true, "",
   true, true, fun _ => 0, 300, 150, true⟩

/-- An environment in which everything succeeds except the allocation of
the position buffer, which returns null. -/
def envNoPosBuffer : GLEnv :=
  ⟨true, true, fun _ => true, fun _ => true, fun _ => "", true, true, "",
   false, true, fun _ => 0, 300, 150, true⟩

/-- Helper: a command satisfying a predicate is not in a list whose
filtering by that predicate is empty. -/
lemma not_mem_of_filter_nil {p : GLCmd → Bool} {t : List GLCmd}
    (h : t.filter p = []) {c : GLCmd} (hc : p c = true) : c ∉ t := by
  intro hm
  have hmem : c ∈ t.filter p := List.mem_filter.mpr ⟨hm, hc⟩
  rw [h] at hmem
  exact absurd hmem (List.not_mem_nil c)

/-- Helper: a `createShader` trace contains no `bufferData` event. -/
lemma createShader_no_bufferData (env : GLEnv) (ty : Nat) (source : String) :
    ((createShader env ty source).1).filter GLCmd.isBufferData = [] := by
  unfold createShader
  split_ifs <;> rfl

/-- Helper: a `createProgram` trace contains no `bufferData` event. -/
lemma createProgram_no_bufferData (env : GLEnv) (v f : Nat) :
    ((createProgram env v f).1).filter GLCmd.isBufferData = [] := by
  unfold createProgram
  split_ifs <;> rfl

/-- Helper: the whole startup trace contains no `bufferData` event — the
only uploads are in the frame callback. -/
lemma mainRun_no_bufferData (env : GLEnv) :
    (mainRun env).filter GLCmd.isBufferData = [] := by
  simp only [mainRun]
  split_ifs <;>
    simp [List.filter_append, createShader_no_bufferData,
      createProgram_no_bufferData, GLCmd.isBufferData]

/-- Helper: the compile-failure diagnostic is never the empty string. -/
lemma shaderCompileErrorMsg_pos (log : String) :
    0 < (shaderCompileErrorMsg log).length := by
  unfold shaderCompileErrorMsg
  rw [String.length_append, String.length_append]
  have h : (0 : Nat) < ("Could not compile WebGL shader.\n\n      " : String).length := by
    decide
  omega

/-- Helper: the link-failure diagnostic is never the empty string. -/
lemma programLinkErrorMsg_pos (log : String) :
    0 < (programLinkErrorMsg log).length := by
  unfold programLinkErrorMsg
  rw [String.length_append, String.length_append]
  have h : (0 : Nat) < ("Could not compile WebGL program.\n    \n      " : String).length := by
    decide
  omega

/-- Recognizes every command of the phases after shader compilation:
program work, buffer work, viewport/clear/attribute/draw work, and the
frame-callback registration. -/
def GLCmd.isAfterShaderPhase : GLCmd → Bool
  | .createShaderCall _ | .shaderSourceCmd _ _ | .compileShaderCmd _
  | .deleteShaderCmd _ | .consoleError _ | .consoleLog _ => false
  | _ => true

/-- Helper: a `createShader` trace contains only shader-phase commands. -/
lemma createShader_no_later (env : GLEnv) (ty : Nat) (source : String) :
    ((createShader env ty source).1).filter GLCmd.isAfterShaderPhase = [] := by
  unfold createShader
  split_ifs <;> rfl

/-- Claim C1 (refuted as stated; recorded as a code bug): the frame
callback is claimed to re-register itself for the next display refresh on
every invocation, so that rendering continues indefinitely.  In the code
the closure returned by `render` issues the draw and returns without any
`requestAnimationFrame` call, so in every environment no render invocation
ever schedules a next one: the `// render loop` runs exactly once. -/
theorem render_never_reschedules (env : GLEnv) :
    GLCmd.requestAnimationFrameCmd ∉ renderFrame env := by
  simp [renderFrame]

/-- Claim C2: every render invocation first clears the color buffer to
opaque white and the depth buffer (its first two commands are
`clearColor(1,1,1,1)` and `clear` with both the color and the depth bits
set in the mask), and then issues exactly one draw command, a triangle
list of 9 vertices starting at offset 0. -/
theorem render_clears_then_draws_once (env : GLEnv) :
    (renderFrame env).take 2 =
      [GLCmd.clearColorCmd 1 1 1 1,
       GLCmd.clearCmd (GL_COLOR_BUFFER_BIT ||| GL_DEPTH_BUFFER_BIT)] ∧
    (GL_COLOR_BUFFER_BIT ||| GL_DEPTH_BUFFER_BIT) &&& GL_COLOR_BUFFER_BIT = GL_COLOR_BUFFER_BIT ∧
    (GL_COLOR_BUFFER_BIT ||| GL_DEPTH_BUFFER_BIT) &&& GL_DEPTH_BUFFER_BIT = GL_DEPTH_BUFFER_BIT ∧
    ((renderFrame env).filter GLCmd.isDrawArrays) = [GLCmd.drawArraysCmd GL_TRIANGLES 0 9] := by
  refine ⟨rfl, by decide, by decide, rfl⟩

/-- Claim C3: the position array holds exactly 18 floats and the color
array exactly 36 unsigned-byte values (each below 256), and
`pos.length / 2 = colors.length / 4 = 9`; both lists are constants of the
embedding, so the invariant holds at all times after creation. -/
theorem geometry_invariant :
    pos.length = 18 ∧ colors.length = 36 ∧
    pos.length / 2 = 9 ∧ colors.length / 4 = 9 ∧
    colors.all (fun c => decide (c < 256)) = true := by
  refine ⟨rfl, rfl, rfl, rfl, by decide⟩

/-- Claim C4: whenever the shader handle is allocated but the compile
status reports failure, `createShader` returns null, logs the non-empty
compile diagnostic, and deletes the shader handle as its last action
before returning. -/
theorem createShader_compile_failure (env : GLEnv) (ty : Nat) (source : String)
    (halloc : env.shaderAllocOk ty = true)
    (hcompile : env.compileStatusOf ty = false) :
    (createShader env ty source).2 = none ∧
    GLCmd.consoleError (shaderCompileErrorMsg (env.shaderInfoLogOf ty))
      ∈ (createShader env ty source).1 ∧
    0 < (shaderCompileErrorMsg (env.shaderInfoLogOf ty)).length ∧
    ((createShader env ty source).1).getLast? = some (GLCmd.deleteShaderCmd ty) := by
  have h : createShader env ty source =
      ([.createShaderCall ty, .shaderSourceCmd ty source, .compileShaderCmd ty,
        .consoleError (shaderCompileErrorMsg (env.shaderInfoLogOf ty)),
        .deleteShaderCmd ty], none) := by
    simp [createShader, halloc, hcompile]
  rw [h]
  exact ⟨rfl, by simp, shaderCompileErrorMsg_pos _, rfl⟩

/-- Witness for C4 at a concrete environment whose compile status fails. -/
theorem createShader_compile_failure_witness :
    (createShader envCompileFail GL_VERTEX_SHADER vertProgram).2 = none ∧
    GLCmd.consoleError (shaderCompileErrorMsg (envCompileFail.shaderInfoLogOf GL_VERTEX_SHADER))
      ∈ (createShader envCompileFail GL_VERTEX_SHADER vertProgram).1 ∧
    0 < (shaderCompileErrorMsg (envCompileFail.shaderInfoLogOf GL_VERTEX_SHADER)).length ∧
    ((createShader envCompileFail GL_VERTEX_SHADER vertProgram).1).getLast?
      = some (GLCmd.deleteShaderCmd GL_VERTEX_SHADER) :=
  createShader_compile_failure envCompileFail GL_VERTEX_SHADER vertProgram rfl rfl

/-- Claim C5: whenever the program handle is allocated but the link status
reports failure, `createProgram` returns null, logs the non-empty link
diagnostic, and deletes the program handle as its last action before
returning. -/
theorem createProgram_link_failure (env : GLEnv) (v f : Nat)
    (halloc : env.programAllocOk = true)
    (hlink : env.linkStatusOk = false) :
    (createProgram env v f).2 = none ∧
    GLCmd.consoleError (programLinkErrorMsg env.programInfoLog) ∈ (createProgram env v f).1 ∧
    0 < (programLinkErrorMsg env.programInfoLog).length ∧
    ((createProgram env v f).1).getLast? = some GLCmd.deleteProgramCmd := by
  have h : createProgram env v f =
      ([.createProgramCall, .attachShaderCmd v, .attachShaderCmd f, .linkProgramCmd,
        .consoleError (programLinkErrorMsg env.programInfoLog),
        .deleteProgramCmd], none) := by
    simp [createProgram, halloc, hlink]
  rw [h]
  exact ⟨rfl, by simp, programLinkErrorMsg_pos _, rfl⟩

/-- Witness for C5 at a concrete environment whose link status fails. -/
theorem createProgram_link_failure_witness :
    (createProgram envLinkFail GL_VERTEX_SHADER GL_FRAGMENT_SHADER).2 = none ∧
    GLCmd.consoleError (programLinkErrorMsg envLinkFail.programInfoLog)
      ∈ (createProgram envLinkFail GL_VERTEX_SHADER GL_FRAGMENT_SHADER).1 ∧
    0 < (programLinkErrorMsg envLinkFail.programInfoLog).length ∧
    ((createProgram envLinkFail GL_VERTEX_SHADER GL_FRAGMENT_SHADER).1).getLast?
      = some GLCmd.deleteProgramCmd :=
  createProgram_link_failure envLinkFail GL_VERTEX_SHADER GL_FRAGMENT_SHADER rfl rfl

/-- Claim C6: whenever canvas and context are present but the vertex
compile status of the vertex shader reports failure, startup ends with the logged
shader-failure message and performs no program or buffer work: the linker
is never invoked and no program, buffer, or later command appears in the
startup trace. -/
theorem main_vertex_compile_failure_halts (env : GLEnv)
    (hc : env.canvasPresent = true) (hx : env.contextPresent = true)
    (ha : env.shaderAllocOk GL_VERTEX_SHADER = true)
    (hv : env.compileStatusOf GL_VERTEX_SHADER = false) :
    (∃ t, mainRun env = t ++ [GLCmd.consoleError shadersFailedMsg]) ∧
    GLCmd.createProgramCall ∉ mainRun env ∧
    GLCmd.linkProgramCmd ∉ mainRun env ∧
    GLCmd.useProgramCmd ∉ mainRun env ∧
    (∀ b, GLCmd.createBufferCall b ∉ mainRun env) ∧
    (∀ target data usage, GLCmd.bufferDataCmd target data usage ∉ mainRun env) := by
  have h2 : (createShader env GL_VERTEX_SHADER vertProgram).2 = none := by
    simp [createShader, ha, hv]
  have hmain : mainRun env =
      (createShader env GL_VERTEX_SHADER vertProgram).1 ++
      ((createShader env GL_FRAGMENT_SHADER fragProgram).1 ++
        [GLCmd.consoleError shadersFailedMsg]) := by
    simp [mainRun, hc, hx, h2]
  have hfilter : (mainRun env).filter GLCmd.isAfterShaderPhase = [] := by
    rw [hmain]
    simp [List.filter_append, createShader_no_later, GLCmd.isAfterShaderPhase]
  refine ⟨⟨(createShader env GL_VERTEX_SHADER vertProgram).1 ++
      (createShader env GL_FRAGMENT_SHADER fragProgram).1,
      by rw [hmain]; exact (List.append_assoc _ _ _).symm⟩,
    not_mem_of_filter_nil hfilter rfl,
    not_mem_of_filter_nil hfilter rfl,
    not_mem_of_filter_nil hfilter rfl,
    fun b => not_mem_of_filter_nil hfilter rfl,
    fun target data usage => not_mem_of_filter_nil hfilter rfl⟩

/-- Witness for C6 at a concrete environment whose vertex compile fails. -/
theorem main_vertex_compile_failure_halts_witness :
    (∃ t, mainRun envCompileFail = t ++ [GLCmd.consoleError shadersFailedMsg]) ∧
    GLCmd.createProgramCall ∉ mainRun envCompileFail ∧
    GLCmd.linkProgramCmd ∉ mainRun envCompileFail ∧
    GLCmd.useProgramCmd ∉ mainRun envCompileFail ∧
    (∀ b, GLCmd.createBufferCall b ∉ mainRun envCompileFail) ∧
    (∀ target data usage, GLCmd.bufferDataCmd target data usage ∉ mainRun envCompileFail) :=
  main_vertex_compile_failure_halts envCompileFail rfl rfl rfl rfl

/-- Claim C7: whenever the canvas or the context is unavailable, startup
emits exactly one console-error message, which is one of the two dedicated
surface/context messages and differs from the shader-failure message, and
nothing further happens: no shader work, no draw, and no frame callback is
ever registered, so the process continues as a no-op. -/
theorem main_missing_surface_halts (env : GLEnv)
    (h : env.canvasPresent = false ∨ env.contextPresent = false) :
    (∃ m, mainRun env = [GLCmd.consoleError m] ∧
      (m = canvasErrMsg ∨ m = contextErrMsg) ∧ m ≠ shadersFailedMsg) ∧
    (∀ ty, GLCmd.createShaderCall ty ∉ mainRun env) ∧
    (∀ ty, GLCmd.compileShaderCmd ty ∉ mainRun env) ∧
    (∀ mode first count, GLCmd.drawArraysCmd mode first count ∉ mainRun env) ∧
    GLCmd.requestAnimationFrameCmd ∉ mainRun env := by
  have hmain : mainRun env = [GLCmd.consoleError canvasErrMsg] ∨
      mainRun env = [GLCmd.consoleError contextErrMsg] := by
    cases hcp : env.canvasPresent with
    | false => exact Or.inl (by simp [mainRun, hcp])
    | true =>
      rcases h with h | h
      · rw [hcp] at h; exact absurd h (by simp)
      · exact Or.inr (by simp [mainRun, hcp, h])
  rcases hmain with hmain | hmain <;>
    refine ⟨⟨_, hmain, by simp, by decide⟩,
      fun ty => by rw [hmain]; simp,
      fun ty => by rw [hmain]; simp,
      fun mode first count => by rw [hmain]; simp,
      by rw [hmain]; simp⟩

/-- Witness for C7 at a concrete environment with no canvas element. -/
theorem main_missing_surface_halts_witness :
    (∃ m, mainRun envNoCanvas = [GLCmd.consoleError m] ∧
      (m = canvasErrMsg ∨ m = contextErrMsg) ∧ m ≠ shadersFailedMsg) ∧
    (∀ ty, GLCmd.createShaderCall ty ∉ mainRun envNoCanvas) ∧
    (∀ ty, GLCmd.compileShaderCmd ty ∉ mainRun envNoCanvas) ∧
    (∀ mode first count, GLCmd.drawArraysCmd mode first count ∉ mainRun envNoCanvas) ∧
    GLCmd.requestAnimationFrameCmd ∉ mainRun envNoCanvas :=
  main_missing_surface_halts envNoCanvas (Or.inl rfl)

/-- Claim C8: every render invocation re-uploads both buffers with the
same constant data — `bufferData` runs exactly twice per frame, first with
the 18-float position payload, then with the 36-byte color payload — and
around each upload the matching attribute is enabled and described:
position as 2 float components, not normalized, stride 0, offset 0; color
as 4 unsigned-byte components, normalized, stride 0, offset 0.  No upload
happens during startup. -/
theorem render_reuploads_and_describes (env : GLEnv) :
    ((renderFrame env).filter GLCmd.isBufferData) =
      [GLCmd.bufferDataCmd GL_ARRAY_BUFFER (.f32 pos) GL_STATIC_DRAW,
       GLCmd.bufferDataCmd GL_ARRAY_BUFFER (.u8 colors) GL_STATIC_DRAW] ∧
    (renderFrame env)[3]? = some (GLCmd.enableVertexAttribArrayCmd (env.attribLoc "a_Pos")) ∧
    (renderFrame env)[5]? = some (GLCmd.bufferDataCmd GL_ARRAY_BUFFER (.f32 pos) GL_STATIC_DRAW) ∧
    (renderFrame env)[6]? =
      some (GLCmd.vertexAttribPointerCmd (env.attribLoc "a_Pos") 2 GL_FLOAT false 0 0) ∧
    (renderFrame env)[8]? = some (GLCmd.enableVertexAttribArrayCmd (env.attribLoc "a_Col")) ∧
    (renderFrame env)[10]? = some (GLCmd.bufferDataCmd GL_ARRAY_BUFFER (.u8 colors) GL_STATIC_DRAW) ∧
    (renderFrame env)[11]? =
      some (GLCmd.vertexAttribPointerCmd (env.attribLoc "a_Col") 4 GL_UNSIGNED_BYTE true 0 0) ∧
    (mainRun env).filter GLCmd.isBufferData = [] :=
  ⟨rfl, rfl, rfl, rfl, rfl, rfl, rfl, mainRun_no_bufferData env⟩

/-- Claim C9: whenever the vertex shader fails to compile (with allocation
succeeding for both stages), startup still invokes `createShader` and the
compile step for the fragment stage, and the trace ends with the single
combined failure message shared by both stages. -/
theorem main_compiles_fragment_even_if_vertex_fails (env : GLEnv)
    (hc : env.canvasPresent = true) (hx : env.contextPresent = true)
    (ha : env.shaderAllocOk GL_VERTEX_SHADER = true)
    (hv : env.compileStatusOf GL_VERTEX_SHADER = false)
    (hfa : env.shaderAllocOk GL_FRAGMENT_SHADER = true) :
    GLCmd.createShaderCall GL_FRAGMENT_SHADER ∈ mainRun env ∧
    GLCmd.compileShaderCmd GL_FRAGMENT_SHADER ∈ mainRun env ∧
    (∃ t, mainRun env = t ++ [GLCmd.consoleError shadersFailedMsg]) := by
  have h2 : (createShader env GL_VERTEX_SHADER vertProgram).2 = none := by
    simp [createShader, ha, hv]
  have hmain : mainRun env =
      (createShader env GL_VERTEX_SHADER vertProgram).1 ++
      ((createShader env GL_FRAGMENT_SHADER fragProgram).1 ++
        [GLCmd.consoleError shadersFailedMsg]) := by
    simp [mainRun, hc, hx, h2]
  refine ⟨?_, ?_,
    ⟨(createShader env GL_VERTEX_SHADER vertProgram).1 ++
      (createShader env GL_FRAGMENT_SHADER fragProgram).1,
      by rw [hmain]; exact (List.append_assoc _ _ _).symm⟩⟩ <;>
    rw [hmain] <;>
    cases hfc : env.compileStatusOf GL_FRAGMENT_SHADER <;>
    simp [createShader, ha, hv, hfa, hfc]

/-- Witness for C9 at a concrete environment whose compiles fail. -/
theorem main_compiles_fragment_even_if_vertex_fails_witness :
    GLCmd.createShaderCall GL_FRAGMENT_SHADER ∈ mainRun envCompileFail ∧
    GLCmd.compileShaderCmd GL_FRAGMENT_SHADER ∈ mainRun envCompileFail ∧
    (∃ t, mainRun envCompileFail = t ++ [GLCmd.consoleError shadersFailedMsg]) :=
  main_compiles_fragment_even_if_vertex_fails envCompileFail rfl rfl rfl rfl rfl

/-- Claim C10: buffer allocation is never checked.  In a run where
everything else succeeds but the position-buffer allocation returns null,
startup still logs no error, still registers the frame callback (no early
return), and the frame callback binds the null buffer handle and uploads
into it: the null allocation flows into `bindBuffer`/`bufferData`
unchecked, unlike shader and program allocation. -/
theorem main_buffer_alloc_unchecked (env : GLEnv)
    (hc : env.canvasPresent = true) (hx : env.contextPresent = true)
    (hva : env.shaderAllocOk GL_VERTEX_SHADER = true)
    (hfa : env.shaderAllocOk GL_FRAGMENT_SHADER = true)
    (hvc : env.compileStatusOf GL_VERTEX_SHADER = true)
    (hfc : env.compileStatusOf GL_FRAGMENT_SHADER = true)
    (hpa : env.programAllocOk = true) (hls : env.linkStatusOk = true)
    (hpb : env.posBufferAlloc = false) :
    GLCmd.createBufferCall false ∈ mainRun env ∧
    (mainRun env).filter GLCmd.isConsoleError = [] ∧
    GLCmd.requestAnimationFrameCmd ∈ mainRun env ∧
    (renderFrame env)[4]? = some (GLCmd.bindBufferCmd GL_ARRAY_BUFFER none) ∧
    (renderFrame env)[5]? = some (GLCmd.bufferDataCmd GL_ARRAY_BUFFER (.f32 pos) GL_STATIC_DRAW) := by
  have hvs : createShader env GL_VERTEX_SHADER vertProgram =
      ([.createShaderCall GL_VERTEX_SHADER, .shaderSourceCmd GL_VERTEX_SHADER vertProgram,
        .compileShaderCmd GL_VERTEX_SHADER], some GL_VERTEX_SHADER) := by
    simp [createShader, hva, hvc]
  have hfs : createShader env GL_FRAGMENT_SHADER fragProgram =
      ([.createShaderCall GL_FRAGMENT_SHADER, .shaderSourceCmd GL_FRAGMENT_SHADER fragProgram,
        .compileShaderCmd GL_FRAGMENT_SHADER], some GL_FRAGMENT_SHADER) := by
    simp [createShader, hfa, hfc]
  have hps : createProgram env GL_VERTEX_SHADER GL_FRAGMENT_SHADER =
      ([.createProgramCall, .attachShaderCmd GL_VERTEX_SHADER,
        .attachShaderCmd GL_FRAGMENT_SHADER, .linkProgramCmd], some ()) := by
    simp [createProgram, hpa, hls]
  have hmain : mainRun env =
      [.createShaderCall GL_VERTEX_SHADER, .shaderSourceCmd GL_VERTEX_SHADER vertProgram,
       .compileShaderCmd GL_VERTEX_SHADER,
       .createShaderCall GL_FRAGMENT_SHADER, .shaderSourceCmd GL_FRAGMENT_SHADER fragProgram,
       .compileShaderCmd GL_FRAGMENT_SHADER,
       .createProgramCall, .attachShaderCmd GL_VERTEX_SHADER,
       .attachShaderCmd GL_FRAGMENT_SHADER, .linkProgramCmd,
       .useProgramCmd,
       .createBufferCall env.posBufferAlloc,
       .createBufferCall env.colBufferAlloc,
       .consoleLog (resizeDoneMsg env),
       .viewportCmd 0 0 env.canvasW env.canvasH,
       .requestAnimationFrameCmd,
       .consoleLog "done"] := by
    simp [mainRun, hc, hx, hvs, hfs, hps]
  refine ⟨by rw [hmain, hpb]; simp, by rw [hmain]; rfl, by rw [hmain]; simp, ?_, ?_⟩ <;>
    simp [renderFrame, posBufferHandle, hpb]

/-- Witness for C10 at a concrete environment whose position-buffer
allocation fails. -/
theorem main_buffer_alloc_unchecked_witness :
    GLCmd.createBufferCall false ∈ mainRun envNoPosBuffer ∧
    (mainRun envNoPosBuffer).filter GLCmd.isConsoleError = [] ∧
    GLCmd.requestAnimationFrameCmd ∈ mainRun envNoPosBuffer ∧
    (renderFrame envNoPosBuffer)[4]? = some (GLCmd.bindBufferCmd GL_ARRAY_BUFFER none) ∧
    (renderFrame envNoPosBuffer)[5]?
      = some (GLCmd.bufferDataCmd GL_ARRAY_BUFFER (.f32 pos) GL_STATIC_DRAW) :=
  main_buffer_alloc_unchecked envNoPosBuffer rfl rfl rfl rfl rfl rfl rfl rfl rfl

end Webgl01
